import Mathlib

/-!
Verification development for the `remotetypes` collection service.

The development shallowly embeds the Python sources:
  `remotetypes/remotedict.py`, `remotetypes/remotelist.py`,
  `remotetypes/remoteset.py`, `remotetypes/factory.py`, `kafka_client.py`.

Modelling conventions:
* A Python `dict` is an insertion-ordered association list with unique keys
  (`assocSet` models `d[k] = v`: update in place if the key exists, append
  otherwise).
* A Python `set` of strings is a duplicate-free list; CPython leaves the
  enumeration order unspecified (it depends on the hash table layout), so the
  model pins it to insertion order.  No theorem below depends on which
  particular order the interpreter would produce.
* The file system is a map from path to the parsed JSON contents of the file;
  `none` models a missing file.  `json.load` of a malformed file (which the
  sources turn into an empty collection) is not representable here because the
  store holds already-parsed values; no claim below exercises that branch.
* Remote exceptions (`rt.KeyError`, `rt.IndexError`) become an explicit error
  result `RErr`; iterator signals (`rt.StopIteration`, `rt.CancelIteration`)
  become `IterErr`.
-/

namespace RemoteTypes

/-- JSON values as stored in the backing files (`json.dump`/`json.load`). -/
inductive Json where
  | null : Json
  | str : String → Json
  | int : Int → Json
  | arr : List Json → Json
  | obj : List (String × Json) → Json

/-- Python `x is None` test on a JSON value. -/
def Json.isNull : Json → Bool
  | .null => true
  | _ => false

/-- First-match lookup in a string-keyed association list (Python dict read). -/
def lookupStr {α : Type} : List (String × α) → String → Option α
  | [], _ => none
  | (k, v) :: tl, q => if k = q then some v else lookupStr tl q

/-- File system: path ↦ parsed JSON contents of the file. -/
abbrev FS : Type := List (String × Json)

/-- The empty file system (no backing file exists yet). -/
def FS.empty : FS := []

/-- `os.path.exists` + `json.load`: the parsed contents of a file, if present. -/
def FS.read (fs : FS) (path : String) : Option Json :=
  lookupStr fs path

/-- Drops every entry stored under the given key. -/
def removeKey {α : Type} : List (String × α) → String → List (String × α)
  | [], _ => []
  | (k, v) :: tl, p => if k = p then removeKey tl p else (k, v) :: removeKey tl p

/-- Membership test for a string-keyed association list (Python `k in d`). -/
def hasKey {α : Type} : List (String × α) → String → Bool
  | [], _ => false
  | (k, _) :: tl, p => k = p || hasKey tl p

/-- `open(path, "w")` + `json.dump`: rewrite the complete file. -/
def FS.write (fs : FS) (path : String) (j : Json) : FS :=
  (path, j) :: removeKey fs path

theorem lookupStr_removeKey_ne {α : Type} (l : List (String × α)) (p q : String)
    (h : q ≠ p) : lookupStr (removeKey l p) q = lookupStr l q := by
  induction l with
  | nil => rfl
  | cons e tl ih =>
      rcases e with ⟨k, v⟩
      by_cases he : k = p
      · have hq : k ≠ q := by rw [he]; exact Ne.symm h
        simp [removeKey, he, lookupStr, hq, ih, Ne.symm h]
      · by_cases hq : k = q
        · simp [removeKey, he, lookupStr, hq, h]
        · simp [removeKey, he, lookupStr, hq, ih]

theorem FS.read_write_self (fs : FS) (path : String) (j : Json) :
    (fs.write path j).read path = some j := by
  simp [FS.read, FS.write, lookupStr]

theorem FS.read_write_other (fs : FS) (path q : String) (j : Json) (h : q ≠ path) :
    (fs.write path j).read q = fs.read q := by
  simp only [FS.read, FS.write, lookupStr, if_neg (fun he => h (Eq.symm he))]
  exact lookupStr_removeKey_ne fs path q h

/-- Updates the value of the (unique) entry under key `k`, in place. -/
def setInPlace {α : Type} : List (String × α) → String → α → List (String × α)
  | [], _, _ => []
  | (k', v') :: tl, k, v =>
      if k' = k then (k, v) :: setInPlace tl k v else (k', v') :: setInPlace tl k v

/-- Python `d[k] = v` on a dict / `storage[id] = state`: replace the value in
place if the key is present, append the pair otherwise. -/
def assocSet {α : Type} (l : List (String × α)) (k : String) (v : α) :
    List (String × α) :=
  if hasKey l k then setInPlace l k v else l ++ [(k, v)]

theorem lookupStr_setInPlace_self {α : Type} (l : List (String × α)) (k : String)
    (v : α) (h : hasKey l k = true) : lookupStr (setInPlace l k v) k = some v := by
  induction l with
  | nil => simp [hasKey] at h
  | cons e tl ih =>
      rcases e with ⟨k', v'⟩
      by_cases he : k' = k
      · simp [setInPlace, he, lookupStr]
      · simp only [hasKey, he] at h
        simp [setInPlace, he, lookupStr, ih (by simpa using h)]

theorem lookupStr_setInPlace_other {α : Type} (l : List (String × α)) (k q : String)
    (v : α) (h : q ≠ k) : lookupStr (setInPlace l k v) q = lookupStr l q := by
  induction l with
  | nil => rfl
  | cons e tl ih =>
      rcases e with ⟨k', v'⟩
      by_cases he : k' = k
      · have : k' ≠ q := by rw [he]; exact Ne.symm h
        simp [setInPlace, he, lookupStr, this, Ne.symm h, ih]
      · by_cases hq : k' = q
        · simp [setInPlace, he, lookupStr, hq, h]
        · simp [setInPlace, he, lookupStr, hq, ih]

theorem lookupStr_append_right {α : Type} (l : List (String × α)) (k : String)
    (v : α) (h : hasKey l k = false) :
    lookupStr (l ++ [(k, v)]) k = some v := by
  induction l with
  | nil => simp [lookupStr]
  | cons e tl ih =>
      rcases e with ⟨k', v'⟩
      simp only [hasKey, Bool.or_eq_false_iff] at h
      have hk : k' ≠ k := by
        intro hkk
        simp [hkk] at h
      simp [lookupStr, hk, ih h.2]

theorem assocSet_lookup_self {α : Type} (l : List (String × α)) (k : String) (v : α) :
    lookupStr (assocSet l k v) k = some v := by
  unfold assocSet
  by_cases hc : hasKey l k
  · simp [hc, lookupStr_setInPlace_self l k v hc]
  · simp only [Bool.not_eq_true] at hc
    simp [hc, lookupStr_append_right l k v hc]

theorem assocSet_lookup_other {α : Type} (l : List (String × α)) (k q : String)
    (v : α) (h : q ≠ k) : lookupStr (assocSet l k v) q = lookupStr l q := by
  unfold assocSet
  by_cases hc : hasKey l k
  · simp [hc, lookupStr_setInPlace_other l k q v h]
  · simp only [Bool.not_eq_true] at hc
    simp only [hc, Bool.false_eq_true, if_false]
    induction l with
    | nil => simp [lookupStr, h, Ne.symm h]
    | cons e tl ih =>
        rcases e with ⟨k', v'⟩
        by_cases hq : k' = q
        · simp [lookupStr, hq]
        · simp only [hasKey, Bool.or_eq_false_iff] at hc
          simp [lookupStr, hq, ih hc.2]

/-- Collection-level error results.  `keyError` and `indexError` mirror the
`rt.KeyError` and `rt.IndexError` exceptions raised by the sources.
`emptyCollection` is modelled from the spec: the spec lists an
`EmptyCollection` error code in its taxonomy, but no exception or code of that
kind exists anywhere under `src/`; the constructor exists only so that claims
mentioning it can be stated and compared against what the code produces. -/
inductive RErr where
  | keyError (msg : String)
  | indexError (msg : String)
  | emptyCollection (msg : String)
deriving DecidableEq, Repr

/-- Iterator signals: `rt.StopIteration` and `rt.CancelIteration`. -/
inductive IterErr where
  | stopIteration
  | cancelIteration
deriving DecidableEq, Repr

instance exceptDecEq {ε α : Type} [DecidableEq ε] [DecidableEq α] :
    DecidableEq (Except ε α)
  | .ok x, .ok y =>
      if h : x = y then .isTrue (by rw [h])
      else .isFalse (by intro hh; cases hh; exact h rfl)
  | .ok _, .error _ => .isFalse (by intro hh; cases hh)
  | .error _, .ok _ => .isFalse (by intro hh; cases hh)
  | .error e, .error f =>
      if h : e = f then .isTrue (by rw [h])
      else .isFalse (by intro hh; cases hh; exact h rfl)

/-- Decodes a JSON object all of whose values are strings (the shape a
`RemoteDict` backing file has after any save). -/
def strEntries? : List (String × Json) → Option (List (String × String))
  | [] => some []
  | (k, Json.str v) :: tl => (strEntries? tl).map (fun r => (k, v) :: r)
  | _ => none

theorem strEntries?_roundtrip (l : List (String × String)) :
    strEntries? (l.map (fun p => (p.1, Json.str p.2))) = some l := by
  induction l with
  | nil => rfl
  | cons e tl ih => simp [strEntries?, ih]

/-- Decodes a JSON array of strings (the shape a persisted list/set has). -/
def strList? : List Json → Option (List String)
  | [] => some []
  | Json.str s :: tl => (strList? tl).map (fun r => s :: r)
  | _ => none

theorem strList?_roundtrip (l : List String) :
    strList? (l.map Json.str) = some l := by
  induction l with
  | nil => rfl
  | cons e tl ih => simp [strList?, ih]

/-! ## RemoteDict (`remotetypes/remotedict.py`) -/

/-- In-memory state of a `RemoteDict` instance. -/
structure RDict where
  id_ : String
  storage_file : String
  storage : List (String × String)
  modCount : Nat
deriving DecidableEq, Repr

/-- `RemoteDict._load_data`: the whole file parses directly as the dictionary;
a missing (or malformed) file yields `{}`.  A well-formed file that is not an
object of strings would be returned untyped by the Python code and break every
later operation; such files are never produced by the code and the model maps
them to `{}`. -/
def RemoteDict.loadData (storage_file : String) (fs : FS) : List (String × String) :=
  match fs.read storage_file with
  | some (Json.obj entries) => (strEntries? entries).getD []
  | some _ => []
  | none => []

/-- `RemoteDict.__init__`: load existing state, start the counter at 0.
The constructor performs no write; the returned file system is the input one. -/
def mkRemoteDict (identifier storage_file : String) (fs : FS) : RDict × FS :=
  ({ id_ := identifier, storage_file := storage_file,
     storage := RemoteDict.loadData storage_file fs, modCount := 0 }, fs)

/-- `RemoteDict._save_data`: dump the raw storage dict into the file
(no identifier wrapper). -/
def RDict.saveData (d : RDict) (fs : FS) : FS :=
  fs.write d.storage_file (Json.obj (d.storage.map (fun p => (p.1, Json.str p.2))))

/-- `RemoteDict.length`. -/
def RDict.length (d : RDict) : Nat := d.storage.length

/-- `RemoteDict.contains`. -/
def RDict.contains (d : RDict) (key : String) : Bool := hasKey d.storage key

/-- `RemoteDict.getItem`: value at the key or `rt.KeyError(key)`. -/
def RDict.getItem (d : RDict) (key : String) : Except RErr String :=
  match lookupStr d.storage key with
  | some v => .ok v
  | none => .error (.keyError key)

/-- `RemoteDict.setItem`: upsert, always bumps the counter, then saves. -/
def RDict.setItem (d : RDict) (key item : String) (fs : FS) : RDict × FS :=
  let d' := { d with storage := assocSet d.storage key item, modCount := d.modCount + 1 }
  (d', d'.saveData fs)

/-- `RemoteDict.remove`: delete the key, bump, save; `rt.KeyError(key)` if the
key is absent (nothing is changed then). -/
def RDict.remove (d : RDict) (key : String) (fs : FS) :
    Except RErr Unit × RDict × FS :=
  if hasKey d.storage key then
    let d' := { d with storage := removeKey d.storage key, modCount := d.modCount + 1 }
    (.ok (), d', d'.saveData fs)
  else
    (.error (.keyError key), d, fs)

/-- `RemoteDict.pop`: remove and return the value; `rt.KeyError(key)` if the
key is absent. -/
def RDict.pop (d : RDict) (key : String) (fs : FS) :
    Except RErr String × RDict × FS :=
  match lookupStr d.storage key with
  | some v =>
      let d' := { d with storage := removeKey d.storage key, modCount := d.modCount + 1 }
      (.ok v, d', d'.saveData fs)
  | none => (.error (.keyError key), d, fs)

/-- `DictIterator`: captured counter plus the traversal still to come.  The
Python object holds a live `iter(dict.items())`; because every mutation of a
`RemoteDict` bumps the counter and `next` consults the counter before touching
the view, the view is only ever advanced while the dict is unchanged, so a
snapshot of the remaining items is an equivalent model. -/
structure DictIter where
  expected : Nat
  rest : List (String × String)
deriving DecidableEq, Repr

/-- `RemoteDict.iter`: a fresh iterator over the current items, capturing the
current counter. -/
def RDict.iter (d : RDict) : DictIter :=
  { expected := d.modCount, rest := d.storage }

/-- `DictIterator.next`: counter comparison first (`rt.CancelIteration`), then
the next `"key: value"` entry or `rt.StopIteration`. -/
def DictIter.next (it : DictIter) (d : RDict) : Except IterErr String × DictIter :=
  if it.expected ≠ d.modCount then (.error .cancelIteration, it)
  else
    match it.rest with
    | [] => (.error .stopIteration, it)
    | (k, v) :: tl => (.ok (k ++ ": " ++ v), { it with rest := tl })

/-! ## RemoteList (`remotetypes/remotelist.py`) -/

/-- In-memory state of a `RemoteList` instance. -/
structure RList where
  id_ : String
  storage_file : String
  storage : List String
  modCount : Nat
deriving DecidableEq, Repr

/-- `RemoteList._load_data`: the file holds `{identifier: [elements...]}`;
`data.get(self.id_, [])`.  Missing or malformed file yields `[]`. -/
def RemoteList.loadData (identifier storage_file : String) (fs : FS) : List String :=
  match fs.read storage_file with
  | some (Json.obj entries) =>
      match lookupStr entries identifier with
      | some (Json.arr items) => (strList? items).getD []
      | _ => []
  | some _ => []
  | none => []

/-- `RemoteList.__init__`: load existing state, counter 0, no write. -/
def mkRemoteList (identifier storage_file : String) (fs : FS) : RList × FS :=
  ({ id_ := identifier, storage_file := storage_file,
     storage := RemoteList.loadData identifier storage_file fs, modCount := 0 }, fs)

/-- The entries of the JSON object currently stored in a file (`{}` when the
file is missing; a non-object file would make the Python re-read/update
crash and is likewise mapped to `{}` — no such file is ever written). -/
def objEntries (fs : FS) (path : String) : List (String × Json) :=
  match fs.read path with
  | some (Json.obj entries) => entries
  | some _ => []
  | none => []

/-- `RemoteList._save_data`: re-read the file, set `data[self.id_]` to the
current elements, rewrite the whole file (other identifiers preserved). -/
def RList.saveData (l : RList) (fs : FS) : FS :=
  fs.write l.storage_file
    (Json.obj (assocSet (objEntries fs l.storage_file) l.id_
      (Json.arr (l.storage.map Json.str))))

/-- `RemoteList.length`. -/
def RList.length (l : RList) : Nat := l.storage.length

/-- `RemoteList.contains`. -/
def RList.contains (l : RList) (item : String) : Bool := l.storage.contains item

/-- `RemoteList.append`: always bumps and saves. -/
def RList.append (l : RList) (item : String) (fs : FS) : RList × FS :=
  let l' := { l with storage := l.storage ++ [item], modCount := l.modCount + 1 }
  (l', l'.saveData fs)

/-- `RemoteList.remove`: drop the first occurrence, bump, save;
`rt.KeyError("Item ... not found in list")` if absent. -/
def RList.remove (l : RList) (item : String) (fs : FS) :
    Except RErr Unit × RList × FS :=
  if l.storage.contains item then
    let l' := { l with storage := l.storage.erase item, modCount := l.modCount + 1 }
    (.ok (), l', l'.saveData fs)
  else
    (.error (.keyError ("Item " ++ item ++ " not found in list")), l, fs)

/-- Python sequence indexing: negative indices count from the end. -/
def pyIndex (len : Nat) (i : Int) : Option Nat :=
  let j : Int := if i < 0 then i + len else i
  if 0 ≤ j ∧ j < len then some j.toNat else none

/-- `str(index)` as used in the `rt.IndexError` messages (`None` included). -/
def pyOptIntStr : Option Int → String
  | none => "None"
  | some i => toString i

/-- `RemoteList.getItem`: `self._storage_[index]`, or
`rt.IndexError("Index ... is out of range")`. -/
def RList.getItem (l : RList) (index : Int) : Except RErr String :=
  match pyIndex l.storage.length index with
  | some j => .ok (l.storage.getD j "")
  | none => .error (.indexError ("Index " ++ toString index ++ " is out of range"))

/-- `RemoteList.pop`: `pop()` (no or unset index) removes the last element,
`pop(i)` removes the element at Python index `i`; bump and save on success,
`rt.IndexError` and no change on an invalid index or empty list. -/
def RList.pop (l : RList) (index : Option Int) (fs : FS) :
    Except RErr String × RList × FS :=
  match index with
  | none =>
      match l.storage.getLast? with
      | some x =>
          let l' := { l with storage := l.storage.dropLast, modCount := l.modCount + 1 }
          (.ok x, l', l'.saveData fs)
      | none =>
          (.error (.indexError ("Index " ++ pyOptIntStr none ++ " is out of range")), l, fs)
  | some i =>
      match pyIndex l.storage.length i with
      | some j =>
          let l' := { l with storage := l.storage.eraseIdx j, modCount := l.modCount + 1 }
          (.ok (l.storage.getD j ""), l', l'.saveData fs)
      | none =>
          (.error (.indexError ("Index " ++ toString i ++ " is out of range")), l, fs)

/-- `ListIterator`: captured counter plus the remaining snapshot (the live
`iter(list)` coincides with the snapshot for the same reason as `DictIter`). -/
structure ListIter where
  expected : Nat
  rest : List String
deriving DecidableEq, Repr

/-- `RemoteList.iter`. -/
def RList.iter (l : RList) : ListIter :=
  { expected := l.modCount, rest := l.storage }

/-- `ListIterator.next`: counter comparison first, then next element or
`rt.StopIteration`. -/
def ListIter.next (it : ListIter) (l : RList) : Except IterErr String × ListIter :=
  if it.expected ≠ l.modCount then (.error .cancelIteration, it)
  else
    match it.rest with
    | [] => (.error .stopIteration, it)
    | x :: tl => (.ok x, { it with rest := tl })

/-! ## RemoteSet (`remotetypes/remoteset.py`) -/

/-- `RemoteSet.GLOBAL_STORAGE_FILE`: one file shared by all set identifiers. -/
def globalStorageFile : String := "remoteset_data.json"

/-- In-memory state of a `RemoteSet` instance (`self.data` as an
insertion-ordered duplicate-free list, see the header). -/
structure RSet where
  identifier : String
  data : List String
  modCount : Nat
deriving DecidableEq, Repr

/-- Building a Python `set` from a list: insert elements in order, ignoring
duplicates (insertion-order abstraction of the hash table). -/
def pysetOfList (xs : List String) : List String :=
  xs.foldl (fun acc x => if acc.contains x then acc else acc ++ [x]) []

/-- `RemoteSet._load_data`: read the global file; if it holds an entry for this
identifier, the set becomes `set(storage[identifier])`; otherwise (and for a
missing or malformed file) the set stays empty. -/
def RemoteSet.loadData (identifier : String) (fs : FS) : List String :=
  match fs.read globalStorageFile with
  | some (Json.obj entries) =>
      match lookupStr entries identifier with
      | some (Json.arr items) => pysetOfList ((strList? items).getD [])
      | _ => []
  | some _ => []
  | none => []

/-- `RemoteSet.__init__`: empty set, counter 0, then `_load_data`; no write. -/
def mkRemoteSet (identifier : String) (fs : FS) : RSet × FS :=
  ({ identifier := identifier, data := RemoteSet.loadData identifier fs,
     modCount := 0 }, fs)

/-- `RemoteSet._save_global_storage`: re-read the global file, set
`storage[self.identifier] = list(self.data)`, rewrite the whole file. -/
def RSet.saveGlobal (s : RSet) (fs : FS) : FS :=
  fs.write globalStorageFile
    (Json.obj (assocSet (objEntries fs globalStorageFile) s.identifier
      (Json.arr (s.data.map Json.str))))

/-- `RemoteSet.length`. -/
def RSet.length (s : RSet) : Nat := s.data.length

/-- `RemoteSet.contains`. -/
def RSet.contains (s : RSet) (item : String) : Bool := s.data.contains item

/-- `RemoteSet.add`: insert only if absent; a re-add of a present element
changes nothing (no counter bump, no save). -/
def RSet.add (s : RSet) (item : String) (fs : FS) : RSet × FS :=
  if s.data.contains item then (s, fs)
  else
    let s' := { s with data := s.data ++ [item], modCount := s.modCount + 1 }
    (s', s'.saveGlobal fs)

/-- `RemoteSet.remove`: membership check first;
`rt.KeyError("El elemento '...' no existe en el conjunto.")` when absent. -/
def RSet.remove (s : RSet) (item : String) (fs : FS) :
    Except RErr Unit × RSet × FS :=
  if s.data.contains item then
    let s' := { s with data := s.data.erase item, modCount := s.modCount + 1 }
    (.ok (), s', s'.saveGlobal fs)
  else
    (.error (.keyError ("El elemento \x27" ++ item ++ "\x27 no existe en el conjunto.")),
     s, fs)

/-- `RemoteSet.pop`: `rt.KeyError("El conjunto está vacío.")` on the empty set;
otherwise `set.pop()` removes and returns the first element in enumeration
order (insertion order in this model). -/
def RSet.pop (s : RSet) (fs : FS) : Except RErr String × RSet × FS :=
  match s.data with
  | [] => (.error (.keyError "El conjunto está vacío."), s, fs)
  | x :: rest =>
      let s' := { s with data := rest, modCount := s.modCount + 1 }
      (.ok x, s', s'.saveGlobal fs)

/-- `RemoteSetIterator`: unlike the dict and list iterators it captures no
modification counter; it only wraps `iter(remote_set.data)`.  The model
follows CPython's set iterator: `si_used` records the set's size at creation;
while the iterator is attached, each `next` first compares `si_used` with the
live size and raises `RuntimeError` (which `RemoteSetIterator.next` turns
into `rt.CancelIteration`) on mismatch, making that state sticky by setting
`si_used := -1`; the call that finds no further entry reports exhaustion and
detaches the iterator from its set (`si_set = NULL`, modelled by `detached`),
after which every call reports `StopIteration` with no size check, whatever
happens to the set later.  When attached and the sizes agree, the real
iterator walks the (possibly mutated) live hash table; the model then yields
the remaining creation-time snapshot.  No theorem below depends on which
element a size-preservingly-mutated set would yield, only on whether the call
cancels. -/
structure SetIter where
  detached : Bool
  siUsed : Int
  rest : List String
deriving DecidableEq, Repr

/-- `RemoteSet.iter`: wrap a fresh `iter(self.data)`. -/
def RSet.iter (s : RSet) : SetIter :=
  { detached := false, siUsed := (s.data.length : Int), rest := s.data }

/-- `RemoteSetIterator.next`: `rt.StopIteration` forever once detached by a
previous exhausting call; otherwise `rt.CancelIteration` (sticky) when the
underlying set changed size, the next element while one remains, and on the
exhausting call `rt.StopIteration` with the iterator detaching. -/
def SetIter.next (it : SetIter) (s : RSet) : Except IterErr String × SetIter :=
  if it.detached then (.error .stopIteration, it)
  else if it.siUsed ≠ (s.data.length : Int) then
    (.error .cancelIteration, { it with siUsed := -1 })
  else
    match it.rest with
    | [] => (.error .stopIteration, { it with detached := true })
    | x :: tl => (.ok x, { it with rest := tl })

/-! ## Factory (`remotetypes/factory.py`) -/

/-- The three object types of `rt.TypeName`. -/
inductive TypeName where
  | RDictT
  | RListT
  | RSetT
deriving DecidableEq, Repr

/-- The factory's per-type instance caches (`self._rdicts` etc.). -/
structure FactoryState where
  rdicts : List (String × RDict)
  rlists : List (String × RList)
  rsets : List (String × RSet)
deriving DecidableEq, Repr

/-- A freshly constructed factory: empty caches.  (`Factory.__init__` also
creates the `storage/` directory; directories are not modelled.) -/
def FactoryState.init : FactoryState := ⟨[], [], []⟩

/-- `identifier or "default_..."`: Python truthiness replaces both a missing
identifier and the empty string by the type-specific default. -/
def pyOrDefault (identifier : Option String) (dflt : String) : String :=
  match identifier with
  | none => dflt
  | some s => if s = "" then dflt else s

/-- `os.path.join(STORAGE_PATH, f"rdict_{identifier}.json")`. -/
def rdictFileFor (identifier : String) : String :=
  "storage/rdict_" ++ identifier ++ ".json"

/-- `os.path.join(STORAGE_PATH, f"rlist_{identifier}.json")`. -/
def rlistFileFor (identifier : String) : String :=
  "storage/rlist_" ++ identifier ++ ".json"

/-- A handle returned by the factory. -/
inductive Handle where
  | hDict (d : RDict)
  | hList (l : RList)
  | hSet (s : RSet)
deriving DecidableEq, Repr

/-- `Factory._get_rdict`: cached instance, or construct, cache and return. -/
def FactoryState.getRDict (st : FactoryState) (identifier : String) (fs : FS) :
    RDict × FactoryState × FS :=
  match lookupStr st.rdicts identifier with
  | some d => (d, st, fs)
  | none =>
      let (d, fs') := mkRemoteDict identifier (rdictFileFor identifier) fs
      (d, { st with rdicts := st.rdicts ++ [(identifier, d)] }, fs')

/-- `Factory._get_rlist`. -/
def FactoryState.getRList (st : FactoryState) (identifier : String) (fs : FS) :
    RList × FactoryState × FS :=
  match lookupStr st.rlists identifier with
  | some l => (l, st, fs)
  | none =>
      let (l, fs') := mkRemoteList identifier (rlistFileFor identifier) fs
      (l, { st with rlists := st.rlists ++ [(identifier, l)] }, fs')

/-- `Factory._get_rset` (the set always uses the shared global file). -/
def FactoryState.getRSet (st : FactoryState) (identifier : String) (fs : FS) :
    RSet × FactoryState × FS :=
  match lookupStr st.rsets identifier with
  | some s => (s, st, fs)
  | none =>
      let (s, fs') := mkRemoteSet identifier fs
      (s, { st with rsets := st.rsets ++ [(identifier, s)] }, fs')

/-- `Factory.get`: dispatch by type, defaulting a missing/empty identifier. -/
def FactoryState.get (st : FactoryState) (t : TypeName) (identifier : Option String)
    (fs : FS) : Handle × FactoryState × FS :=
  match t with
  | .RDictT =>
      let (d, st', fs') := st.getRDict (pyOrDefault identifier "default_rdict") fs
      (.hDict d, st', fs')
  | .RListT =>
      let (l, st', fs') := st.getRList (pyOrDefault identifier "default_rlist") fs
      (.hList l, st', fs')
  | .RSetT =>
      let (s, st', fs') := st.getRSet (pyOrDefault identifier "default_rset") fs
      (.hSet s, st', fs')

/-! ## Mutation sequences (for the counter claims) -/

/-- One mutating call on a `RemoteDict`. -/
inductive DictMut where
  | setItemM (key item : String)
  | removeM (key : String)
  | popM (key : String)
deriving DecidableEq, Repr

/-- Applies a mutating call, discarding any error result (a failed call leaves
the state untouched, see `RDict.remove`/`RDict.pop`). -/
def RDict.applyMut (d : RDict) (fs : FS) : DictMut → RDict × FS
  | .setItemM k v => d.setItem k v fs
  | .removeM k => let (_, d', fs') := d.remove k fs; (d', fs')
  | .popM k => let (_, d', fs') := d.pop k fs; (d', fs')

/-- Whether this call, applied in state `d`, succeeds and bumps the counter
(`setItem` always does; `remove`/`pop` only when the key is present). -/
def DictMut.bumps (d : RDict) : DictMut → Bool
  | .setItemM _ _ => true
  | .removeM k => hasKey d.storage k
  | .popM k => hasKey d.storage k

/-- Runs a sequence of mutating calls. -/
def RDict.runMuts (d : RDict) (fs : FS) : List DictMut → RDict × FS
  | [] => (d, fs)
  | m :: ms => let (d', fs') := d.applyMut fs m; d'.runMuts fs' ms

/-- Number of counter bumps along a run. -/
def RDict.bumpCount (d : RDict) (fs : FS) : List DictMut → Nat
  | [] => 0
  | m :: ms =>
      (if m.bumps d then 1 else 0) +
        (let (d', fs') := d.applyMut fs m; d'.bumpCount fs' ms)

/-- One mutating call on a `RemoteList`. -/
inductive ListMut where
  | appendM (item : String)
  | removeM (item : String)
  | popM (index : Option Int)
deriving DecidableEq, Repr

/-- Applies a mutating call, discarding any error result. -/
def RList.applyMut (l : RList) (fs : FS) : ListMut → RList × FS
  | .appendM x => l.append x fs
  | .removeM x => let (_, l', fs') := l.remove x fs; (l', fs')
  | .popM i => let (_, l', fs') := l.pop i fs; (l', fs')

/-- Whether this call, applied in state `l`, succeeds and bumps the counter. -/
def ListMut.bumps (l : RList) : ListMut → Bool
  | .appendM _ => true
  | .removeM x => l.storage.contains x
  | .popM none => !l.storage.isEmpty
  | .popM (some i) => (pyIndex l.storage.length i).isSome

/-- Runs a sequence of mutating calls. -/
def RList.runMuts (l : RList) (fs : FS) : List ListMut → RList × FS
  | [] => (l, fs)
  | m :: ms => let (l', fs') := l.applyMut fs m; l'.runMuts fs' ms

/-- Number of counter bumps along a run. -/
def RList.bumpCount (l : RList) (fs : FS) : List ListMut → Nat
  | [] => 0
  | m :: ms =>
      (if m.bumps l then 1 else 0) +
        (let (l', fs') := l.applyMut fs m; l'.bumpCount fs' ms)

/-- One mutating call on a `RemoteSet`. -/
inductive SetMut where
  | addM (item : String)
  | removeM (item : String)
  | popM
deriving DecidableEq, Repr

/-- Applies a mutating call, discarding any error result. -/
def RSet.applyMut (s : RSet) (fs : FS) : SetMut → RSet × FS
  | .addM x => s.add x fs
  | .removeM x => let (_, s', fs') := s.remove x fs; (s', fs')
  | .popM => let (_, s', fs') := s.pop fs; (s', fs')

/-- Whether this call, applied in state `s`, actually changes the set (an
`add` of a present element is a no-op). -/
def SetMut.bumps (s : RSet) : SetMut → Bool
  | .addM x => !s.data.contains x
  | .removeM x => s.data.contains x
  | .popM => !s.data.isEmpty

/-- Runs a sequence of mutating calls. -/
def RSet.runMuts (s : RSet) (fs : FS) : List SetMut → RSet × FS
  | [] => (s, fs)
  | m :: ms => let (s', fs') := s.applyMut fs m; s'.runMuts fs' ms

/-- Number of counter bumps along a run. -/
def RSet.bumpCount (s : RSet) (fs : FS) : List SetMut → Nat
  | [] => 0
  | m :: ms =>
      (if m.bumps s then 1 else 0) +
        (let (s', fs') := s.applyMut fs m; s'.bumpCount fs' ms)

/-! ## Operation dispatch (`kafka_client.py`)

`hacer_evento` and the consuming loop of `consume_and_process_messages`.
Python exceptions that escape an operation are modelled by `PyExc`; they
propagate out of the dispatcher (the loop has no handler for them). -/

/-- An uncaught Python exception inside the dispatch of one descriptor. -/
inductive PyExc where
  | remoteKeyError (msg : String)
  | remoteIndexError (msg : String)
  | missingArg (name : String)
deriving DecidableEq, Repr

/-- Collection errors surface as the corresponding remote exception.  The
`emptyCollection` case is unreachable: the sources never construct it. -/
def RErr.toPyExc : RErr → PyExc
  | .keyError m => .remoteKeyError m
  | .indexError m => .remoteIndexError m
  | .emptyCollection m => .remoteKeyError m

/-- Result values produced by operations.  `vHash` stands in for the integer
returned by Python's built-in `hash`: the digest is seed-randomized per
process, so only its canonical input is recorded; no theorem relies on
equality or inequality of two `vHash` values. -/
inductive RVal where
  | vStr (s : String)
  | vInt (n : Int)
  | vBool (b : Bool)
  | vHash (canon : Json)

/-- Insertion sort of dict items by key (Python `sorted(d.items())`; keys are
unique so the key order decides). -/
def insortPair (p : String × String) : List (String × String) → List (String × String)
  | [] => [p]
  | q :: tl => if p.1 < q.1 then p :: q :: tl else q :: insortPair p tl

/-- `sorted(items)` for string pairs. -/
def sortPairs (l : List (String × String)) : List (String × String) :=
  l.foldr insortPair []

/-- Insertion sort of strings (canonical order of a frozenset digest). -/
def insortStr (x : String) : List String → List String
  | [] => [x]
  | y :: tl => if x < y then x :: y :: tl else y :: insortStr x tl

/-- Sorted list of strings. -/
def sortStrs (l : List String) : List String :=
  l.foldr insortStr []

/-- `RemoteDict.hash`: canonical input `tuple(sorted(items))`. -/
def RDict.hashCanon (d : RDict) : Json :=
  Json.obj ((sortPairs d.storage).map (fun p => (p.1, Json.str p.2)))

/-- `RemoteList.hash`: canonical input `tuple(storage)` in insertion order. -/
def RList.hashCanon (l : RList) : Json :=
  Json.arr (l.storage.map Json.str)

/-- `RemoteSet.hash`: canonical input `frozenset(data)`; a frozenset digest is
order-insensitive, so the canonical form is the sorted element list. -/
def RSet.hashCanon (s : RSet) : Json :=
  Json.arr ((sortStrs s.data).map Json.str)

/-- Arguments of a descriptor (`args` fields `item`, `index`, `key`). -/
structure Args where
  item : Option String
  index : Option Int
  key : Option String
deriving DecidableEq, Repr

/-- An `args` dict with none of the fields (also the `event.get("args", {})`
default). -/
def Args.none3 : Args := ⟨none, none, none⟩

/-- One operation descriptor, as decoded from the inbound JSON.  A field set
to `none` is absent from the event dict.  For `id`, `some Json.null` is a
present-but-null value (the dispatcher distinguishes the two); the other three
fields are only ever used as strings. -/
structure Event where
  id : Option Json
  object_type : Option String
  object_identifier : Option String
  operation : Option String
  args : Args

/-- One response record of the outbound batch. -/
structure Record where
  rid : Json
  status : String
  result : Option RVal
  error : Option String

/-- `args["item"]`: a missing argument raises the built-in `KeyError`. -/
def argItem (a : Args) : Except PyExc String :=
  match a.item with
  | some s => .ok s
  | none => .error (.missingArg "item")

/-- `args["key"]`. -/
def argKey (a : Args) : Except PyExc String :=
  match a.key with
  | some s => .ok s
  | none => .error (.missingArg "key")

/-- `int(args["index"])`. -/
def argIndex (a : Args) : Except PyExc Int :=
  match a.index with
  | some i => .ok i
  | none => .error (.missingArg "index")

/-- The server-side world the proxies act on: the factory's caches plus the
backing files. -/
structure Store where
  factory : FactoryState
  fs : FS

/-- `get_rtype_proxy`'s type-name strings. -/
def typeOfString : String → Option TypeName
  | "RList" => some .RListT
  | "RDict" => some .RDictT
  | "RSet" => some .RSetT
  | _ => none

/-- The type-specific default identifier used by `Factory.get`. -/
def TypeName.defaultId : TypeName → String
  | .RDictT => "default_rdict"
  | .RListT => "default_rlist"
  | .RSetT => "default_rset"

/-- `get_rtype_proxy` + `Factory.get`: ensure the instance for the (defaulted)
identifier exists in the cache; returns the identifier it was cached under. -/
def Store.resolve (st : Store) (t : TypeName) (oid : String) : String × Store :=
  let did := pyOrDefault (some oid) t.defaultId
  match t with
  | .RDictT => let (_, f', fs') := st.factory.getRDict did st.fs; (did, ⟨f', fs'⟩)
  | .RListT => let (_, f', fs') := st.factory.getRList did st.fs; (did, ⟨f', fs'⟩)
  | .RSetT => let (_, f', fs') := st.factory.getRSet did st.fs; (did, ⟨f', fs'⟩)

/-- The cached dict instance the proxy refers to (after `Store.resolve` the
entry always exists; the default branch rebuilds what the factory would). -/
def Store.dictAt (st : Store) (did : String) : RDict :=
  (lookupStr st.factory.rdicts did).getD
    (mkRemoteDict did (rdictFileFor did) st.fs).1

/-- The cached list instance the proxy refers to. -/
def Store.listAt (st : Store) (did : String) : RList :=
  (lookupStr st.factory.rlists did).getD
    (mkRemoteList did (rlistFileFor did) st.fs).1

/-- The cached set instance the proxy refers to. -/
def Store.setAt (st : Store) (did : String) : RSet :=
  (lookupStr st.factory.rsets did).getD (mkRemoteSet did st.fs).1

/-- Writes back the mutated dict instance and file system. -/
def Store.putDict (st : Store) (did : String) (d : RDict) (fs : FS) : Store :=
  ⟨{ st.factory with rdicts := assocSet st.factory.rdicts did d }, fs⟩

/-- Writes back the mutated list instance and file system. -/
def Store.putList (st : Store) (did : String) (l : RList) (fs : FS) : Store :=
  ⟨{ st.factory with rlists := assocSet st.factory.rlists did l }, fs⟩

/-- Writes back the mutated set instance and file system. -/
def Store.putSet (st : Store) (did : String) (s : RSet) (fs : FS) : Store :=
  ⟨{ st.factory with rsets := assocSet st.factory.rsets did s }, fs⟩

/-- `rtype_prx.identifier()`. -/
def Store.identifierAt (st : Store) (t : TypeName) (did : String) : String :=
  match t with
  | .RDictT => (st.dictAt did).id_
  | .RListT => (st.listAt did).id_
  | .RSetT => (st.setAt did).identifier

/-- `rtype_prx.length()`. -/
def Store.lengthAt (st : Store) (t : TypeName) (did : String) : Nat :=
  match t with
  | .RDictT => (st.dictAt did).length
  | .RListT => (st.listAt did).length
  | .RSetT => (st.setAt did).length

/-- `rtype_prx.contains(item)`. -/
def Store.containsAt (st : Store) (t : TypeName) (did item : String) : Bool :=
  match t with
  | .RDictT => (st.dictAt did).contains item
  | .RListT => (st.listAt did).contains item
  | .RSetT => (st.setAt did).contains item

/-- `rtype_prx.hash()` (canonical digest input, see `RVal.vHash`). -/
def Store.hashCanonAt (st : Store) (t : TypeName) (did : String) : Json :=
  match t with
  | .RDictT => (st.dictAt did).hashCanon
  | .RListT => (st.listAt did).hashCanon
  | .RSetT => (st.setAt did).hashCanon

/-- `rtype_prx.remove(item)`: the remote exception propagates uncaught. -/
def Store.removeAt (st : Store) (t : TypeName) (did item : String) :
    Except PyExc Store :=
  match t with
  | .RDictT =>
      match (st.dictAt did).remove item st.fs with
      | (.ok _, d', fs') => .ok (st.putDict did d' fs')
      | (.error e, _, _) => .error e.toPyExc
  | .RListT =>
      match (st.listAt did).remove item st.fs with
      | (.ok _, l', fs') => .ok (st.putList did l' fs')
      | (.error e, _, _) => .error e.toPyExc
  | .RSetT =>
      match (st.setAt did).remove item st.fs with
      | (.ok _, s', fs') => .ok (st.putSet did s' fs')
      | (.error e, _, _) => .error e.toPyExc

/-- `process_common_operation`: the shared operation table; `(none, none, _)`
means "not a common operation, try the type-specific table". -/
def processCommon (st : Store) (t : TypeName) (did : String) (opn : String)
    (a : Args) : Except PyExc (Option RVal × Option String × Store) :=
  if opn = "identifier" then .ok (some (.vStr (st.identifierAt t did)), none, st)
  else if opn = "remove" then
    match argItem a with
    | .error e => .error e
    | .ok item =>
        match st.removeAt t did item with
        | .ok st' => .ok (none, none, st')
        | .error e => .error e
  else if opn = "length" then .ok (some (.vInt (st.lengthAt t did)), none, st)
  else if opn = "contains" then
    match argItem a with
    | .error e => .error e
    | .ok item => .ok (some (.vBool (st.containsAt t did item)), none, st)
  else if opn = "hash" then .ok (some (.vHash (st.hashCanonAt t did)), none, st)
  else if opn = "iter" then .ok (none, some "OperationNotSupported", st)
  else .ok (none, none, st)

/-- `process_rlist`: `append` and `pop` discard the returned element;
`getItem` keeps it.  An unknown operation is a silent no-op. -/
def processRList (st : Store) (did : String) (opn : String) (a : Args) :
    Except PyExc (Option RVal × Option String × Store) :=
  if opn = "append" then
    match argItem a with
    | .error e => .error e
    | .ok item =>
        let (l', fs') := (st.listAt did).append item st.fs
        .ok (none, none, st.putList did l' fs')
  else if opn = "pop" then
    match (st.listAt did).pop a.index st.fs with
    | (.ok _, l', fs') => .ok (none, none, st.putList did l' fs')
    | (.error e, _, _) => .error e.toPyExc
  else if opn = "getItem" then
    match argIndex a with
    | .error e => .error e
    | .ok i =>
        match (st.listAt did).getItem i with
        | .ok v => .ok (some (.vStr v), none, st)
        | .error e => .error e.toPyExc
  else .ok (none, none, st)

/-- `process_rdict`: `setItem` and `pop` discard any returned value;
`getItem` keeps it. -/
def processRDict (st : Store) (did : String) (opn : String) (a : Args) :
    Except PyExc (Option RVal × Option String × Store) :=
  if opn = "setItem" then
    match argKey a with
    | .error e => .error e
    | .ok k =>
        match argItem a with
        | .error e => .error e
        | .ok item =>
            let (d', fs') := (st.dictAt did).setItem k item st.fs
            .ok (none, none, st.putDict did d' fs')
  else if opn = "getItem" then
    match argKey a with
    | .error e => .error e
    | .ok k =>
        match (st.dictAt did).getItem k with
        | .ok v => .ok (some (.vStr v), none, st)
        | .error e => .error e.toPyExc
  else if opn = "pop" then
    match argKey a with
    | .error e => .error e
    | .ok k =>
        match (st.dictAt did).pop k st.fs with
        | (.ok _, d', fs') => .ok (none, none, st.putDict did d' fs')
        | (.error e, _, _) => .error e.toPyExc
  else .ok (none, none, st)

/-- `process_rset`: `add` and `pop`, results discarded. -/
def processRSet (st : Store) (did : String) (opn : String) (a : Args) :
    Except PyExc (Option RVal × Option String × Store) :=
  if opn = "add" then
    match argItem a with
    | .error e => .error e
    | .ok item =>
        let (s', fs') := (st.setAt did).add item st.fs
        .ok (none, none, st.putSet did s' fs')
  else if opn = "pop" then
    match (st.setAt did).pop st.fs with
    | (.ok _, s', fs') => .ok (none, none, st.putSet did s' fs')
    | (.error e, _, _) => .error e.toPyExc
  else .ok (none, none, st)

/-- `hacer_evento`: validate field presence, resolve the proxy (which also
creates and caches the instance), try the common table, then the
type-specific one.  The returned pair is `(result, error)`. -/
def hacerEvento (st : Store) (ev : Event) :
    Except PyExc (Option RVal × Option String × Store) :=
  match ev.id, ev.object_type, ev.object_identifier, ev.operation with
  | some _, some ot, some oid, some opn =>
      match typeOfString ot with
      | none => .ok (none, some "UnknownObjectType", st)
      | some t =>
          let (did, st₁) := st.resolve t oid
          match processCommon st₁ t did opn ev.args with
          | .error e => .error e
          | .ok (some r, err, st₂) => .ok (some r, err, st₂)
          | .ok (none, some err, st₂) => .ok (none, some err, st₂)
          | .ok (none, none, st₂) =>
              match t with
              | .RListT => processRList st₂ did opn ev.args
              | .RDictT => processRDict st₂ did opn ev.args
              | .RSetT => processRSet st₂ did opn ev.args
  | _, _, _, _ => .ok (none, some "MalformedOperation", st)

/-- The response-assembly step of the consuming loop for one descriptor: an
error is reported only when `op.get("id") is not None`; a success uses
`op["id"]` directly (raising the built-in `KeyError` if absent — unreachable,
since a missing id already failed `MalformedOperation`). -/
def recordFor (ev : Event) (res : Option RVal) (err : Option String) :
    Except PyExc (Option Record) :=
  match err with
  | some e =>
      .ok (match ev.id with
           | some j => if j.isNull then none else some ⟨j, "error", none, some e⟩
           | none => none)
  | none =>
      match ev.id with
      | none => .error (.missingArg "id")
      | some j =>
          match res with
          | some r => .ok (some ⟨j, "ok", some r, none⟩)
          | none => .ok (some ⟨j, "ok", none, none⟩)

/-- The per-batch loop body: process the descriptors in order, aggregating
response records; an uncaught exception aborts the whole batch. -/
def processBatch (st : Store) : List Event → Except PyExc (List Record × Store)
  | [] => .ok ([], st)
  | ev :: evs =>
      match hacerEvento st ev with
      | .error e => .error e
      | .ok (res, err, st') =>
          match recordFor ev res err with
          | .error e => .error e
          | .ok rec? =>
              match processBatch st' evs with
              | .error e => .error e
              | .ok (recs, st'') => .ok (rec?.toList ++ recs, st'')

/-- One consumed message: the response batch is published only when at least
one record was produced (`if message: producer.produce(...)`). -/
def consumeStep (st : Store) (evs : List Event) :
    Except PyExc (Option (List Record) × Store) :=
  match processBatch st evs with
  | .error e => .error e
  | .ok (recs, st') => .ok (if recs.isEmpty then none else some recs, st')

/-! ## General lemmas -/

theorem lookupStr_isSome_eq_hasKey {α : Type} (l : List (String × α)) (k : String) :
    (lookupStr l k).isSome = hasKey l k := by
  induction l with
  | nil => rfl
  | cons e tl ih =>
      rcases e with ⟨k', v'⟩
      by_cases he : k' = k
      · simp [lookupStr, hasKey, he]
      · simp [lookupStr, hasKey, he, ih]

theorem getLast?_isSome_eq_not_isEmpty (l : List String) :
    l.getLast?.isSome = !l.isEmpty := by
  cases l with
  | nil => rfl
  | cons x tl =>
      simp only [List.isEmpty, Bool.not_false]
      exact List.getLast?_isSome.mpr (by simp)

/-! ## Claim C1: the modification counter -/

theorem dict_applyMut_modCount (d : RDict) (fs : FS) (m : DictMut) :
    (d.applyMut fs m).1.modCount = d.modCount + (if m.bumps d then 1 else 0) := by
  cases m with
  | setItemM k v => simp [RDict.applyMut, RDict.setItem, DictMut.bumps]
  | removeM k =>
      by_cases h : hasKey d.storage k <;>
        simp [RDict.applyMut, RDict.remove, DictMut.bumps, h]
  | popM k =>
      have hls := lookupStr_isSome_eq_hasKey d.storage k
      cases hv : lookupStr d.storage k with
      | some v =>
          have hh : hasKey d.storage k = true := by
            rw [← hls, hv]; rfl
          simp [RDict.applyMut, RDict.pop, DictMut.bumps, hv, hh]
      | none =>
          have hh : hasKey d.storage k = false := by
            rw [← hls, hv]; rfl
          simp [RDict.applyMut, RDict.pop, DictMut.bumps, hv, hh]

theorem dict_runMuts_modCount (ms : List DictMut) (d : RDict) (fs : FS) :
    (d.runMuts fs ms).1.modCount = d.modCount + d.bumpCount fs ms := by
  induction ms generalizing d fs with
  | nil => simp [RDict.runMuts, RDict.bumpCount]
  | cons m tl ih =>
      simp only [RDict.runMuts, RDict.bumpCount]
      rw [ih, dict_applyMut_modCount]
      omega

theorem list_applyMut_modCount (l : RList) (fs : FS) (m : ListMut) :
    (l.applyMut fs m).1.modCount = l.modCount + (if m.bumps l then 1 else 0) := by
  cases m with
  | appendM x => simp [RList.applyMut, RList.append, ListMut.bumps]
  | removeM x =>
      by_cases h : x ∈ l.storage <;>
        simp [RList.applyMut, RList.remove, ListMut.bumps, h]
  | popM i =>
      cases i with
      | none =>
          have hg := getLast?_isSome_eq_not_isEmpty l.storage
          cases hv : l.storage.getLast? with
          | some x =>
              have : l.storage.isEmpty = false := by
                cases hE : l.storage.isEmpty
                · rfl
                · rw [hv, hE] at hg; simp at hg
              simp [RList.applyMut, RList.pop, ListMut.bumps, hv, this]
          | none =>
              have : l.storage.isEmpty = true := by
                cases hE : l.storage.isEmpty
                · rw [hv, hE] at hg; simp at hg
                · rfl
              simp [RList.applyMut, RList.pop, ListMut.bumps, hv, this]
      | some i =>
          cases hj : pyIndex l.storage.length i with
          | some j => simp [RList.applyMut, RList.pop, ListMut.bumps, hj]
          | none => simp [RList.applyMut, RList.pop, ListMut.bumps, hj]

theorem list_runMuts_modCount (ms : List ListMut) (l : RList) (fs : FS) :
    (l.runMuts fs ms).1.modCount = l.modCount + l.bumpCount fs ms := by
  induction ms generalizing l fs with
  | nil => simp [RList.runMuts, RList.bumpCount]
  | cons m tl ih =>
      simp only [RList.runMuts, RList.bumpCount]
      rw [ih, list_applyMut_modCount]
      omega

theorem set_applyMut_modCount (s : RSet) (fs : FS) (m : SetMut) :
    (s.applyMut fs m).1.modCount = s.modCount + (if m.bumps s then 1 else 0) := by
  cases m with
  | addM x =>
      by_cases h : x ∈ s.data <;>
        simp [RSet.applyMut, RSet.add, SetMut.bumps, h]
  | removeM x =>
      by_cases h : x ∈ s.data <;>
        simp [RSet.applyMut, RSet.remove, SetMut.bumps, h]
  | popM =>
      cases hd : s.data with
      | nil => simp [RSet.applyMut, RSet.pop, SetMut.bumps, hd, List.isEmpty]
      | cons x tl => simp [RSet.applyMut, RSet.pop, SetMut.bumps, hd, List.isEmpty]

theorem set_runMuts_modCount (ms : List SetMut) (s : RSet) (fs : FS) :
    (s.runMuts fs ms).1.modCount = s.modCount + s.bumpCount fs ms := by
  induction ms generalizing s fs with
  | nil => simp [RSet.runMuts, RSet.bumpCount]
  | cons m tl ih =>
      simp only [RSet.runMuts, RSet.bumpCount]
      rw [ih, set_applyMut_modCount]
      omega

/-- Claim C1 (counterexample): on a fresh `RemoteDict`, calling
`setItem("a", "b")` twice leaves the contents unchanged at the second call,
yet the modification counter ends at 2 — a no-op mutation (an upsert that
rewrites the same pair) does increment the counter, contradicting the claim
that the counter is bumped only by mutations that actually change the
contents. -/
theorem c1_dict_noop_setItem_bumps_counter :
    ((((mkRemoteDict "d" "storage/rdict_d.json" FS.empty).1.setItem "a" "b"
        FS.empty).1.setItem "a" "b" FS.empty).1.storage
      = ((mkRemoteDict "d" "storage/rdict_d.json" FS.empty).1.setItem "a" "b"
        FS.empty).1.storage) ∧
    (((mkRemoteDict "d" "storage/rdict_d.json" FS.empty).1.setItem "a" "b"
        FS.empty).1.modCount = 1) ∧
    ((((mkRemoteDict "d" "storage/rdict_d.json" FS.empty).1.setItem "a" "b"
        FS.empty).1.setItem "a" "b" FS.empty).1.modCount = 2) := by
  exact ⟨rfl, rfl, rfl⟩

/-- Claim C1 (amended): after any sequence of mutating calls on a fresh
collection, the counter equals the number of calls that succeeded and bumped
it: for Set these are exactly the calls that changed the contents (a re-add
of a present element does not bump), while for Dict every successful
`setItem`/`remove`/`pop` call bumps — including a `setItem` that rewrites an
existing key with the identical value, which changes no contents; no call
ever decreases the counter. -/
theorem c1_counter_equals_bumping_calls :
    (∀ (idf file : String) (fs : FS) (ms : List DictMut),
        (((mkRemoteDict idf file fs).1.runMuts fs ms).1.modCount
          = (mkRemoteDict idf file fs).1.bumpCount fs ms)) ∧
    (∀ (idf file : String) (fs : FS) (ms : List ListMut),
        (((mkRemoteList idf file fs).1.runMuts fs ms).1.modCount
          = (mkRemoteList idf file fs).1.bumpCount fs ms)) ∧
    (∀ (idf : String) (fs : FS) (ms : List SetMut),
        (((mkRemoteSet idf fs).1.runMuts fs ms).1.modCount
          = (mkRemoteSet idf fs).1.bumpCount fs ms)) ∧
    (∀ (d : RDict) (fs : FS) (m : DictMut),
        d.modCount ≤ (d.applyMut fs m).1.modCount) ∧
    (∀ (l : RList) (fs : FS) (m : ListMut),
        l.modCount ≤ (l.applyMut fs m).1.modCount) ∧
    (∀ (s : RSet) (fs : FS) (m : SetMut),
        s.modCount ≤ (s.applyMut fs m).1.modCount) ∧
    (∀ (s : RSet) (x : String) (fs : FS),
        (s.add x fs).1.modCount
          = if s.data.contains x then s.modCount else s.modCount + 1) := by
  refine ⟨?_, ?_, ?_, ?_, ?_, ?_, ?_⟩
  · intro idf file fs ms
    rw [dict_runMuts_modCount]
    simp [mkRemoteDict]
  · intro idf file fs ms
    rw [list_runMuts_modCount]
    simp [mkRemoteList]
  · intro idf fs ms
    rw [set_runMuts_modCount]
    simp [mkRemoteSet]
  · intro d fs m
    rw [dict_applyMut_modCount]
    omega
  · intro l fs m
    rw [list_applyMut_modCount]
    omega
  · intro s fs m
    rw [set_applyMut_modCount]
    omega
  · intro s x fs
    by_cases h : x ∈ s.data <;> simp [RSet.add, h]

/-! ## Claim C2: iterator `next` semantics -/

/-- Claim C2 (counterexample): the claim fails for the Set iterator, which
never consults the modification counter.  On a fresh set, `add "x"` (counter
1), create an iterator, consume `"x"`, then `remove "x"` and `add "y"`
(counter 3, size back to 1): the live counter now differs from the counter at
iterator construction, yet the next `next()` call does not fail with
`CancelIteration` (the size check passes, so the call reports exhaustion
instead of the mutation). -/
theorem c2_set_iterator_ignores_counter :
    (let s1 := ((mkRemoteSet "s" FS.empty).1.add "x" FS.empty).1
     let it1 := (s1.iter.next s1).2
     let s3 := ((((s1.remove "x" FS.empty).2.1).add "y" FS.empty)).1
     (s1.iter.next s1).1 = .ok "x" ∧
     s1.modCount = 1 ∧ s3.modCount = 3 ∧
     (it1.next s3).1 ≠ .error .cancelIteration) := by
  decide

/-- Claim C2 (amended): the Dict and List iterators behave as claimed — each
`next()` compares the collection's live counter with the captured one first
and fails `Cancelled` whenever they differ (even on the call that would
otherwise report exhaustion), and their outcome depends on the collection
only through the live counter.  The Set iterator performs no counter
comparison at all: its outcome depends on the collection only through the
live size; while it is still attached (exhaustion not yet reported), a call
fails `Cancelled` exactly when the live size differs from the size captured
at construction (sticky thereafter), so a size-preserving mutation sequence
escapes detection; a call finding the traversal exhausted reports
`Exhausted` and detaches the iterator, after which every call reports
`Exhausted` regardless of any later mutation. -/
theorem c2_iterator_next_semantics :
    (∀ (d d' : RDict) (it : DictIter),
        d.modCount = d'.modCount → it.next d = it.next d') ∧
    (∀ (d : RDict) (it : DictIter),
        it.expected ≠ d.modCount → (it.next d).1 = .error .cancelIteration) ∧
    (∀ (d : RDict) (it : DictIter),
        it.expected = d.modCount → it.rest = [] →
          (it.next d).1 = .error .stopIteration) ∧
    (∀ (d : RDict) (it : DictIter) (k v : String) (tl : List (String × String)),
        it.expected = d.modCount → it.rest = (k, v) :: tl →
          (it.next d).1 = .ok (k ++ ": " ++ v)) ∧
    (∀ (l l' : RList) (it : ListIter),
        l.modCount = l'.modCount → it.next l = it.next l') ∧
    (∀ (l : RList) (it : ListIter),
        it.expected ≠ l.modCount → (it.next l).1 = .error .cancelIteration) ∧
    (∀ (l : RList) (it : ListIter),
        it.expected = l.modCount → it.rest = [] →
          (it.next l).1 = .error .stopIteration) ∧
    (∀ (l : RList) (it : ListIter) (x : String) (tl : List String),
        it.expected = l.modCount → it.rest = x :: tl → (it.next l).1 = .ok x) ∧
    (∀ (s s' : RSet) (it : SetIter),
        s.data.length = s'.data.length → it.next s = it.next s') ∧
    (∀ (s : RSet) (it : SetIter),
        (it.next s).1 = .error .cancelIteration ↔
          (it.detached = false ∧ it.siUsed ≠ (s.data.length : Int))) ∧
    (∀ (s : RSet) (it : SetIter),
        it.detached = true → it.next s = (.error .stopIteration, it)) ∧
    (∀ (s : RSet) (it : SetIter),
        it.detached = false → it.siUsed ≠ (s.data.length : Int) →
          it.next s = (.error .cancelIteration, { it with siUsed := -1 })) ∧
    (∀ (s : RSet) (it : SetIter) (x : String) (tl : List String),
        it.detached = false → it.siUsed = (s.data.length : Int) →
          it.rest = x :: tl → (it.next s).1 = .ok x) ∧
    (∀ (s : RSet) (it : SetIter),
        it.detached = false → it.siUsed = (s.data.length : Int) → it.rest = [] →
          it.next s = (.error .stopIteration, { it with detached := true })) := by
  refine ⟨?_, ?_, ?_, ?_, ?_, ?_, ?_, ?_, ?_, ?_, ?_, ?_, ?_, ?_⟩
  · intro d d' it h
    simp [DictIter.next, h]
  · intro d it h
    simp [DictIter.next, h]
  · intro d it h hr
    simp [DictIter.next, h, hr]
  · intro d it k v tl h hr
    simp [DictIter.next, h, hr]
  · intro l l' it h
    simp [ListIter.next, h]
  · intro l it h
    simp [ListIter.next, h]
  · intro l it h hr
    simp [ListIter.next, h, hr]
  · intro l it x tl h hr
    simp [ListIter.next, h, hr]
  · intro s s' it h
    simp [SetIter.next, h]
  · intro s it
    by_cases hd : it.detached
    · simp [SetIter.next, hd]
    · by_cases hs : it.siUsed = (s.data.length : Int)
      · cases hr : it.rest with
        | nil => simp [SetIter.next, hd, hs, hr]
        | cons x tl => simp [SetIter.next, hd, hs, hr]
      · simp [SetIter.next, hd, hs]
  · intro s it hd
    simp [SetIter.next, hd]
  · intro s it hd hs
    simp [SetIter.next, hd, hs]
  · intro s it x tl hd hs hr
    simp [SetIter.next, hd, hs, hr]
  · intro s it hd hs hr
    simp [SetIter.next, hd, hs, hr]

/-- Witness for `c2_iterator_next_semantics` at concrete inputs: a dict
iterator with a stale counter cancels even though the snapshot is exhausted,
a list iterator with a matching counter returns the next element, and a
detached set iterator keeps reporting exhaustion although the set's size no
longer matches the captured one. -/
theorem c2_iterator_next_semantics_witness :
    ((DictIter.mk 0 []).next
        ((mkRemoteDict "d" "f" FS.empty).1.setItem "a" "b" FS.empty).1).1
      = .error .cancelIteration ∧
    ((ListIter.mk 0 ["x"]).next (mkRemoteList "l" "g" FS.empty).1).1 = .ok "x" ∧
    ((SetIter.mk true 0 []).next (RSet.mk "s" ["y"] 3)
      = (.error .stopIteration, SetIter.mk true 0 [])) := by
  refine ⟨?_, ?_, ?_⟩
  · exact c2_iterator_next_semantics.2.1
      ((mkRemoteDict "d" "f" FS.empty).1.setItem "a" "b" FS.empty).1
      (DictIter.mk 0 []) (by decide)
  · exact c2_iterator_next_semantics.2.2.2.2.2.2.2.1
      (mkRemoteList "l" "g" FS.empty).1 (ListIter.mk 0 ["x"]) "x" [] (by decide) rfl
  · exact c2_iterator_next_semantics.2.2.2.2.2.2.2.2.2.2.1
      (RSet.mk "s" ["y"] 3) (SetIter.mk true 0 []) rfl

/-! ## Claim C3: persisted file layout -/

/-- Claim C3 (counterexample): a `RemoteDict` with identifier `"d1"` holding
`{"k": "v"}` saves its own file as the bare mapping `{"k": "v"}`, not in the
claimed `{identifier: state}` form — the saved object holds the dict's keys
directly and has no entry under the identifier. -/
theorem c3_dict_file_lacks_identifier_wrapper :
    (((RDict.mk "d1" "f" [("k", "v")] 1).saveData FS.empty).read "f"
        = some (Json.obj [("k", Json.str "v")])) ∧
    lookupStr (((RDict.mk "d1" "f" [("k", "v")] 1).storage.map
        (fun p => (p.1, Json.str p.2)))) "d1" = none := by
  exact ⟨rfl, rfl⟩

/-- Claim C3 (amended): Dict persists to its own per-identifier file as the
bare state mapping `{key: value, ...}` (no identifier wrapper); List persists
to its own per-identifier file as `{identifier: [elements...]}`, preserving
any other entries of that file; all Set identifiers persist into the one
shared file as `{identifier: [elements...]}`, preserving the other
identifiers' entries. -/
theorem c3_persistence_layout :
    (∀ (d : RDict) (fs : FS),
        (d.saveData fs).read d.storage_file
          = some (Json.obj (d.storage.map (fun p => (p.1, Json.str p.2))))) ∧
    (∀ (l : RList) (fs : FS),
        ∃ entries,
          (l.saveData fs).read l.storage_file = some (Json.obj entries) ∧
          lookupStr entries l.id_ = some (Json.arr (l.storage.map Json.str)) ∧
          ∀ q, q ≠ l.id_ →
            lookupStr entries q = lookupStr (objEntries fs l.storage_file) q) ∧
    (∀ (s : RSet) (fs : FS),
        ∃ entries,
          (s.saveGlobal fs).read globalStorageFile = some (Json.obj entries) ∧
          lookupStr entries s.identifier = some (Json.arr (s.data.map Json.str)) ∧
          ∀ q, q ≠ s.identifier →
            lookupStr entries q = lookupStr (objEntries fs globalStorageFile) q) := by
  refine ⟨?_, ?_, ?_⟩
  · intro d fs
    exact FS.read_write_self fs d.storage_file _
  · intro l fs
    refine ⟨assocSet (objEntries fs l.storage_file) l.id_
      (Json.arr (l.storage.map Json.str)), ?_, ?_, ?_⟩
    · exact FS.read_write_self fs l.storage_file _
    · exact assocSet_lookup_self _ _ _
    · intro q hq
      exact assocSet_lookup_other _ _ _ _ hq
  · intro s fs
    refine ⟨assocSet (objEntries fs globalStorageFile) s.identifier
      (Json.arr (s.data.map Json.str)), ?_, ?_, ?_⟩
    · exact FS.read_write_self fs globalStorageFile _
    · exact assocSet_lookup_self _ _ _
    · intro q hq
      exact assocSet_lookup_other _ _ _ _ hq

/-- Witness for `c3_persistence_layout` at concrete inputs: saving the list
`["a"]` under identifier `"l1"` into an empty file system stores
`{"l1": ["a"]}` and leaves an unrelated key `"zz"` absent. -/
theorem c3_persistence_layout_witness :
    ∃ entries,
      ((RList.mk "l1" "g" ["a"] 0).saveData FS.empty).read "g"
        = some (Json.obj entries) ∧
      lookupStr entries "l1" = some (Json.arr [Json.str "a"]) ∧
      lookupStr entries "zz" = lookupStr (objEntries FS.empty "g") "zz" := by
  obtain ⟨es, h1, h2, h3⟩ := c3_persistence_layout.2.1 (RList.mk "l1" "g" ["a"] 0) FS.empty
  exact ⟨es, h1, h2, h3 "zz" (by decide)⟩

/-! ## Claim C4: `RemoteSet.pop` -/

/-- Does a pop result carry the spec's `EmptyCollection` code? -/
def isEmptyCollectionResult : Except RErr String → Bool
  | .error (.emptyCollection _) => true
  | _ => false

/-- Claim C4 (counterexample): `pop()` on a fresh (empty) set fails with the
`rt.KeyError` exception carrying the message `"El conjunto está vacío."` —
the same exception type the code uses for a missing element — and not with
any `EmptyCollection`-coded error. -/
theorem c4_empty_pop_raises_keyError :
    (((mkRemoteSet "s" FS.empty).1.pop FS.empty).1
        = .error (.keyError "El conjunto está vacío.")) ∧
    isEmptyCollectionResult ((mkRemoteSet "s" FS.empty).1.pop FS.empty).1 = false := by
  exact ⟨rfl, rfl⟩

/-- Claim C4 (amended): `pop()` on an empty set fails with `rt.KeyError`
whose message signals the empty set (`"El conjunto está vacío."` — the
empty-collection condition is surfaced only through the message, there is no
distinct `EmptyCollection` code), leaving everything unchanged; on a
non-empty set it removes and returns the first element in enumeration order:
the returned element was in the set, the size drops by one, and (for
duplicate-free data) the element is no longer present. -/
theorem c4_set_pop_behaviour :
    (∀ (s : RSet) (fs : FS), s.data = [] →
        s.pop fs = (.error (.keyError "El conjunto está vacío."), s, fs)) ∧
    (∀ (s : RSet) (fs : FS) (x : String) (rest : List String),
        s.data = x :: rest →
          ∃ s' fs', s.pop fs = (.ok x, s', fs') ∧ x ∈ s.data ∧
            s'.data = rest ∧ s'.data.length + 1 = s.data.length ∧
            (s.data.Nodup → x ∉ s'.data)) := by
  constructor
  · intro s fs h
    simp [RSet.pop, h]
  · intro s fs x rest h
    refine ⟨{ s with data := rest, modCount := s.modCount + 1 },
      ({ s with data := rest, modCount := s.modCount + 1 } : RSet).saveGlobal fs,
      ?_, ?_, rfl, ?_, ?_⟩
    · simp [RSet.pop, h]
    · rw [h]; exact List.mem_cons_self x rest
    · simp [h]
    · intro hnd
      rw [h] at hnd
      simpa using (List.nodup_cons.mp hnd).1

/-- Witness for `c4_set_pop_behaviour` at concrete inputs: popping the set
`{"a", "b"}` removes and returns `"a"`, and popping the empty set fails with
the `rt.KeyError` message. -/
theorem c4_set_pop_behaviour_witness :
    ((RSet.mk "s" [] 0).pop FS.empty
        = (.error (.keyError "El conjunto está vacío."), RSet.mk "s" [] 0,
           FS.empty)) ∧
    (∃ s' fs', (RSet.mk "s" ["a", "b"] 2).pop FS.empty = (.ok "a", s', fs') ∧
      "a" ∈ (RSet.mk "s" ["a", "b"] 2).data ∧ s'.data = ["b"] ∧
      s'.data.length + 1 = (RSet.mk "s" ["a", "b"] 2).data.length ∧
      ((RSet.mk "s" ["a", "b"] 2).data.Nodup → "a" ∉ s'.data)) := by
  constructor
  · exact c4_set_pop_behaviour.1 (RSet.mk "s" [] 0) FS.empty rfl
  · exact c4_set_pop_behaviour.2 (RSet.mk "s" ["a", "b"] 2) FS.empty "a" ["b"] rfl

/-! ## Claim C5: construction persists no initial record -/

/-- Claim C5 (counterexample): the first factory access for identifier `"a"`
on an empty file system returns the instance without writing anything — the
dict's backing file still does not exist afterwards, so no initial record
was persisted before the instance was returned. -/
theorem c5_first_access_persists_nothing :
    ((FactoryState.init.get .RDictT (some "a") FS.empty).2.2 = FS.empty) ∧
    ((FactoryState.init.get .RDictT (some "a") FS.empty).2.2.read
        (rdictFileFor "a") = none) := by
  exact ⟨rfl, rfl⟩

/-- Claim C5 (amended): the first factory access constructs the instance by
loading existing persisted state (or initializing empty state when nothing is
stored) with the counter at 0, but persists nothing: the backing store is
returned unchanged by every factory access, and the first write to a backing
file happens only on the first successful mutation.  (The unused
`PersistentObject` base class would persist an initial record on
construction, but no collection class derives from it.) -/
theorem c5_factory_first_access :
    (∀ (t : TypeName) (idf : Option String) (st : FactoryState) (fs : FS),
        (st.get t idf fs).2.2 = fs) ∧
    (∀ (idf : String) (fs : FS), idf ≠ "" →
        (FactoryState.init.get .RDictT (some idf) fs).1
          = .hDict { id_ := idf, storage_file := rdictFileFor idf,
                     storage := RemoteDict.loadData (rdictFileFor idf) fs,
                     modCount := 0 }) ∧
    (∀ (idf : String) (fs : FS), idf ≠ "" →
        (FactoryState.init.get .RListT (some idf) fs).1
          = .hList { id_ := idf, storage_file := rlistFileFor idf,
                     storage := RemoteList.loadData idf (rlistFileFor idf) fs,
                     modCount := 0 }) ∧
    (∀ (idf : String) (fs : FS), idf ≠ "" →
        (FactoryState.init.get .RSetT (some idf) fs).1
          = .hSet { identifier := idf,
                    data := RemoteSet.loadData idf fs, modCount := 0 }) := by
  refine ⟨?_, ?_, ?_, ?_⟩
  · intro t idf st fs
    cases t
    · simp only [FactoryState.get, FactoryState.getRDict]
      rcases lookupStr st.rdicts (pyOrDefault idf "default_rdict") with _ | d <;> rfl
    · simp only [FactoryState.get, FactoryState.getRList]
      rcases lookupStr st.rlists (pyOrDefault idf "default_rlist") with _ | l <;> rfl
    · simp only [FactoryState.get, FactoryState.getRSet]
      rcases lookupStr st.rsets (pyOrDefault idf "default_rset") with _ | s <;> rfl
  · intro idf fs h
    simp [FactoryState.get, FactoryState.getRDict, FactoryState.init, pyOrDefault, h,
      lookupStr, mkRemoteDict]
  · intro idf fs h
    simp [FactoryState.get, FactoryState.getRList, FactoryState.init, pyOrDefault, h,
      lookupStr, mkRemoteList]
  · intro idf fs h
    simp [FactoryState.get, FactoryState.getRSet, FactoryState.init, pyOrDefault, h,
      lookupStr, mkRemoteSet]

/-- Witness for `c5_factory_first_access` at concrete inputs: the first
access for `"a"` under each type yields the freshly loaded instance. -/
theorem c5_factory_first_access_witness :
    ((FactoryState.init.get .RDictT (some "a") FS.empty).1
        = .hDict { id_ := "a", storage_file := rdictFileFor "a",
                   storage := RemoteDict.loadData (rdictFileFor "a") FS.empty,
                   modCount := 0 }) ∧
    ((FactoryState.init.get .RSetT (some "a") FS.empty).1
        = .hSet { identifier := "a",
                  data := RemoteSet.loadData "a" FS.empty, modCount := 0 }) := by
  constructor
  · exact c5_factory_first_access.2.1 "a" FS.empty (by decide)
  · exact c5_factory_first_access.2.2.2 "a" FS.empty (by decide)

/-! ## Claim C7: persist/reload round-trip -/

theorem foldl_insertUnique (xs acc : List String) (h : (acc ++ xs).Nodup) :
    xs.foldl (fun a x => if a.contains x then a else a ++ [x]) acc = acc ++ xs := by
  induction xs generalizing acc with
  | nil => simp
  | cons x tl ih =>
      have hx : x ∉ acc := by
        intro hmem
        rcases List.nodup_append.mp h with ⟨-, -, hdisj⟩
        exact hdisj hmem (List.mem_cons_self x tl)
      have hxc : acc.contains x = false := by simpa using hx
      have h' : ((acc ++ [x]) ++ tl).Nodup := by
        rw [List.append_assoc]
        simpa using h
      simp only [List.foldl, hxc, Bool.false_eq_true, if_false]
      rw [ih (acc ++ [x]) h', List.append_assoc]
      rfl

theorem pysetOfList_nodup (xs : List String) (h : xs.Nodup) :
    pysetOfList xs = xs := by
  have hh := foldl_insertUnique xs [] (by simpa using h)
  simpa [pysetOfList] using hh

/-- Claim C7: persisting a collection's state and constructing a new instance
with the same identifier and backing file yields identical contents and
length, for all three types (for Set under the invariant that the in-memory
data is duplicate-free, which every reachable set state satisfies). -/
theorem c7_persist_reload_roundtrip :
    (∀ (d : RDict) (fs : FS),
        (mkRemoteDict d.id_ d.storage_file (d.saveData fs)).1.storage = d.storage ∧
        (mkRemoteDict d.id_ d.storage_file (d.saveData fs)).1.length = d.length) ∧
    (∀ (l : RList) (fs : FS),
        (mkRemoteList l.id_ l.storage_file (l.saveData fs)).1.storage = l.storage ∧
        (mkRemoteList l.id_ l.storage_file (l.saveData fs)).1.length = l.length) ∧
    (∀ (s : RSet) (fs : FS), s.data.Nodup →
        (mkRemoteSet s.identifier (s.saveGlobal fs)).1.data = s.data ∧
        (mkRemoteSet s.identifier (s.saveGlobal fs)).1.length = s.length) := by
  refine ⟨?_, ?_, ?_⟩
  · intro d fs
    have hs : (mkRemoteDict d.id_ d.storage_file (d.saveData fs)).1.storage
        = d.storage := by
      simp [mkRemoteDict, RemoteDict.loadData, RDict.saveData, FS.read_write_self,
        strEntries?_roundtrip]
    exact ⟨hs, by simp [RDict.length, hs]⟩
  · intro l fs
    have hs : (mkRemoteList l.id_ l.storage_file (l.saveData fs)).1.storage
        = l.storage := by
      simp [mkRemoteList, RemoteList.loadData, RList.saveData, FS.read_write_self,
        assocSet_lookup_self, strList?_roundtrip]
    exact ⟨hs, by simp [RList.length, hs]⟩
  · intro s fs hnd
    have hs : (mkRemoteSet s.identifier (s.saveGlobal fs)).1.data = s.data := by
      simp [mkRemoteSet, RemoteSet.loadData, RSet.saveGlobal, FS.read_write_self,
        assocSet_lookup_self, strList?_roundtrip, pysetOfList_nodup s.data hnd]
    exact ⟨hs, by simp [RSet.length, hs]⟩

/-- Witness for `c7_persist_reload_roundtrip` at concrete inputs: the set
`{"a", "b"}` under identifier `"s1"` survives a save/reload with identical
contents and length. -/
theorem c7_persist_reload_roundtrip_witness :
    (mkRemoteSet "s1" ((RSet.mk "s1" ["a", "b"] 2).saveGlobal FS.empty)).1.data
      = ["a", "b"] ∧
    (mkRemoteSet "s1" ((RSet.mk "s1" ["a", "b"] 2).saveGlobal FS.empty)).1.length
      = (RSet.mk "s1" ["a", "b"] 2).length := by
  exact c7_persist_reload_roundtrip.2.2 (RSet.mk "s1" ["a", "b"] 2) FS.empty (by decide)

/-! ## Claim C9: failed mutations change nothing -/

/-- Claim C9: whenever a mutating operation fails with a not-found-class
error (Dict.remove/pop on an absent key, List.remove on an absent item,
List.pop on an invalid index, Set.remove on an absent element, Set.pop on an
empty set), the collection state — contents and modification counter — and
the backing file system are returned unchanged.  (`getItem` is read-only by
construction in this model, mirroring the code, which only indexes.) -/
theorem c9_failed_mutation_is_noop :
    (∀ (d : RDict) (k : String) (fs : FS) (e : RErr),
        (d.remove k fs).1 = .error e → (d.remove k fs).2 = (d, fs)) ∧
    (∀ (d : RDict) (k : String) (fs : FS) (e : RErr),
        (d.pop k fs).1 = .error e → (d.pop k fs).2 = (d, fs)) ∧
    (∀ (l : RList) (x : String) (fs : FS) (e : RErr),
        (l.remove x fs).1 = .error e → (l.remove x fs).2 = (l, fs)) ∧
    (∀ (l : RList) (i : Option Int) (fs : FS) (e : RErr),
        (l.pop i fs).1 = .error e → (l.pop i fs).2 = (l, fs)) ∧
    (∀ (s : RSet) (x : String) (fs : FS) (e : RErr),
        (s.remove x fs).1 = .error e → (s.remove x fs).2 = (s, fs)) ∧
    (∀ (s : RSet) (fs : FS) (e : RErr),
        (s.pop fs).1 = .error e → (s.pop fs).2 = (s, fs)) := by
  refine ⟨?_, ?_, ?_, ?_, ?_, ?_⟩
  · intro d k fs e h
    by_cases hk : hasKey d.storage k
    · simp [RDict.remove, hk] at h
    · simp [RDict.remove, hk]
  · intro d k fs e h
    cases hv : lookupStr d.storage k with
    | some v => simp [RDict.pop, hv] at h
    | none => simp [RDict.pop, hv]
  · intro l x fs e h
    by_cases hx : x ∈ l.storage
    · simp [RList.remove, hx] at h
    · simp [RList.remove, hx]
  · intro l i fs e h
    cases i with
    | none =>
        cases hv : l.storage.getLast? with
        | some v => simp [RList.pop, hv] at h
        | none => simp [RList.pop, hv]
    | some i =>
        cases hj : pyIndex l.storage.length i with
        | some j => simp [RList.pop, hj] at h
        | none => simp [RList.pop, hj]
  · intro s x fs e h
    by_cases hx : x ∈ s.data
    · simp [RSet.remove, hx] at h
    · simp [RSet.remove, hx]
  · intro s fs e h
    cases hd : s.data with
    | nil => simp [RSet.pop, hd]
    | cons y tl => simp [RSet.pop, hd] at h

/-- Witness for `c9_failed_mutation_is_noop` at concrete inputs: removing a
missing key from a fresh dict and popping a fresh (empty) set leave the
instance and the file system untouched. -/
theorem c9_failed_mutation_is_noop_witness :
    (((mkRemoteDict "d" "f" FS.empty).1.remove "k" FS.empty).2
        = ((mkRemoteDict "d" "f" FS.empty).1, FS.empty)) ∧
    (((mkRemoteSet "s" FS.empty).1.pop FS.empty).2
        = ((mkRemoteSet "s" FS.empty).1, FS.empty)) := by
  constructor
  · exact c9_failed_mutation_is_noop.1 (mkRemoteDict "d" "f" FS.empty).1 "k"
      FS.empty (.keyError "k") rfl
  · exact c9_failed_mutation_is_noop.2.2.2.2.2 (mkRemoteSet "s" FS.empty).1
      FS.empty (.keyError "El conjunto está vacío.") rfl

/-! ## Claim C10: empty identifier defaults -/

/-- Claim C10: `Factory.get` with the empty string as identifier behaves
exactly like `Factory.get` with the identifier omitted (Python truthiness
replaces `""` by the type-specific default), the resulting instance is cached
under the default identifier, and a follow-up `get` with the identifier
omitted returns the same cached instance without changing the cache. -/
theorem c10_empty_identifier_is_default :
    (∀ (st : FactoryState) (fs : FS) (t : TypeName),
        st.get t (some "") fs = st.get t none fs) ∧
    (∀ (fs : FS),
        (lookupStr ((FactoryState.init.get .RDictT (some "") fs).2.1).rdicts
          "default_rdict").isSome = true ∧
        (lookupStr ((FactoryState.init.get .RListT (some "") fs).2.1).rlists
          "default_rlist").isSome = true ∧
        (lookupStr ((FactoryState.init.get .RSetT (some "") fs).2.1).rsets
          "default_rset").isSome = true) ∧
    (∀ (st : FactoryState) (fs fs₂ : FS) (t : TypeName),
        ((st.get t (some "") fs).2.1).get t none fs₂
          = ((st.get t (some "") fs).1, (st.get t (some "") fs).2.1, fs₂)) := by
  refine ⟨?_, ?_, ?_⟩
  · intro st fs t
    cases t <;> rfl
  · intro fs
    refine ⟨rfl, rfl, rfl⟩
  · intro st fs fs₂ t
    cases t
    · simp only [FactoryState.get, FactoryState.getRDict, pyOrDefault]
      rcases hv : lookupStr st.rdicts "default_rdict" with _ | d
      · have hk : hasKey st.rdicts "default_rdict" = false := by
          rw [← lookupStr_isSome_eq_hasKey, hv]; rfl
        simp [hv, lookupStr_append_right st.rdicts "default_rdict" _ hk]
      · simp [hv]
    · simp only [FactoryState.get, FactoryState.getRList, pyOrDefault]
      rcases hv : lookupStr st.rlists "default_rlist" with _ | l
      · have hk : hasKey st.rlists "default_rlist" = false := by
          rw [← lookupStr_isSome_eq_hasKey, hv]; rfl
        simp [hv, lookupStr_append_right st.rlists "default_rlist" _ hk]
      · simp [hv]
    · simp only [FactoryState.get, FactoryState.getRSet, pyOrDefault]
      rcases hv : lookupStr st.rsets "default_rset" with _ | s
      · have hk : hasKey st.rsets "default_rset" = false := by
          rw [← lookupStr_isSome_eq_hasKey, hv]; rfl
        simp [hv, lookupStr_append_right st.rsets "default_rset" _ hk]
      · simp [hv]

/-! ## Claim C6: operation-level failures and the response batch -/

/-- Claim C6 (counterexample): a malformed descriptor that lacks its `id`
field fails with `MalformedOperation` at the operation level, yet the loop
appends no response record for it (`op.get("id") is not None` guards the
error record), and a batch consisting only of it publishes nothing — the
failure goes unreported. -/
theorem c6_malformed_without_id_unreported :
    (hacerEvento ⟨FactoryState.init, FS.empty⟩
        ⟨none, none, none, none, Args.none3⟩
      = .ok (none, some "MalformedOperation", ⟨FactoryState.init, FS.empty⟩)) ∧
    (consumeStep ⟨FactoryState.init, FS.empty⟩
        [⟨none, none, none, none, Args.none3⟩]
      = .ok (none, ⟨FactoryState.init, FS.empty⟩)) := by
  exact ⟨rfl, rfl⟩

/-- Claim C6 (amended): a descriptor whose operation fails with a
dispatcher-level error string is reported with a `status: "error"` record
carrying that error only when the descriptor has a non-null `id`; a failing
descriptor whose `id` is absent or null contributes no record at all; and an
operation failure that raises a collection-level exception (`rt.KeyError`,
`rt.IndexError`, or a missing argument) is never converted into an error
record — it propagates and aborts the whole batch, which then publishes
nothing. -/
theorem c6_error_record_reporting :
    (∀ (st : Store) (ev : Event) (evs : List Event) (res : Option RVal)
        (err : String) (st' : Store) (j : Json),
        hacerEvento st ev = .ok (res, some err, st') →
        ev.id = some j → j.isNull = false →
        ∀ recs st₂, processBatch st (ev :: evs) = .ok (recs, st₂) →
          ∃ tail, recs
            = { rid := j, status := "error", result := none,
                error := some err } :: tail) ∧
    (∀ (st : Store) (ev : Event) (evs : List Event) (res : Option RVal)
        (err : String) (st' : Store),
        hacerEvento st ev = .ok (res, some err, st') →
        (ev.id = none ∨ ev.id = some Json.null) →
        processBatch st (ev :: evs) = processBatch st' evs) ∧
    (∀ (st : Store) (ev : Event) (evs : List Event) (e : PyExc),
        hacerEvento st ev = .error e → consumeStep st (ev :: evs) = .error e) := by
  refine ⟨?_, ?_, ?_⟩
  · intro st ev evs res err st' j h hid hnull recs st₂ hb
    simp only [processBatch, h, recordFor, hid, hnull, Bool.false_eq_true,
      if_false, Option.toList] at hb
    cases hrest : processBatch st' evs with
    | error e =>
        rw [hrest] at hb
        cases hb
    | ok p =>
        rw [hrest] at hb
        rcases p with ⟨recs', st''⟩
        have hinj := Except.ok.inj hb
        have hr : Record.mk j "error" none (some err) :: recs' = recs :=
          congrArg Prod.fst hinj
        exact ⟨recs', hr.symm⟩
  · intro st ev evs res err st' h hid
    rcases hid with hid | hid
    · simp only [processBatch, h, recordFor, hid, Option.toList]
      cases hrest : processBatch st' evs with
      | error e => rfl
      | ok p => simp
    · simp only [processBatch, h, recordFor, hid, Json.isNull, if_true,
        Option.toList]
      cases hrest : processBatch st' evs with
      | error e => rfl
      | ok p => simp
  · intro st ev evs e h
    simp [consumeStep, processBatch, h]

/-- Witness for `c6_error_record_reporting` at concrete inputs: a descriptor
with id `"7"` and every other field missing fails `MalformedOperation` and
heads the batch's record list with its error record. -/
theorem c6_error_record_reporting_witness :
    ∃ tail,
      [({ rid := Json.str "7", status := "error", result := none,
          error := some "MalformedOperation" } : Record)]
        = { rid := Json.str "7", status := "error", result := none,
            error := some "MalformedOperation" } :: tail := by
  exact c6_error_record_reporting.1 ⟨FactoryState.init, FS.empty⟩
    ⟨some (Json.str "7"), none, none, none, Args.none3⟩ [] none
    "MalformedOperation" ⟨FactoryState.init, FS.empty⟩ (Json.str "7")
    rfl rfl rfl _ ⟨FactoryState.init, FS.empty⟩ rfl

end RemoteTypes
